import Mathlib

/-!
Verification of the `Mesher` component of `Specfem3DGlobe` (file
`Specfem3DGlobe/Mesher.py`), a shallow embedding of its validation,
processor-count and execution logic.

Modelling conventions:
* The pyre configuration attributes of the `Mesher` component become the
  fields of the structure `MeshConfig`.  `pyre.int` attributes are
  arbitrary-precision Python ints, modelled as `Int`; `pyre.bool` as `Bool`.
* `pyre.dimensional` angle attributes carry a unit; every use in the source
  either compares against `90.0*deg` or divides by `deg`, so an angle is
  modelled by its exact magnitude in degrees, a `Rat`.
* Python 2 `/` on ints is floor division (`Int.fdiv`) and Python 2 `%`
  yields a remainder with the sign of the divisor (`Int.fmod`).
* `_validate(self, context)` reads fields of `self` and calls
  `context.error(...)` once per violated rule, in source order; it assigns
  no attribute.  A run of the method with a fresh context is modelled by
  `validate`, returning the list of accumulated errors in the order the
  `context.error` calls happen.  `context.error` records the error; it does
  not raise, so the method is total on every configuration.
* The pyre attribute validators (`choice([1,2,3,6])` on `nchunks`,
  `greaterEqual(1)` on `nproc-xi`/`nproc-eta`) run at configuration time,
  before `_validate`; they appear here as hypotheses where a claim needs
  them.
-/

namespace Specfem3DGlobe

/-- The `metainventory` items that the `context.error` calls of
`Mesher._validate` attach to errors (only these six attributes are ever
referenced as items). -/
inductive ConfigField
  | angular_width_xi
  | angular_width_eta
  | NEX_XI
  | NEX_ETA
  | NPROC_XI
  | NPROC_ETA
deriving DecidableEq, Repr

/-- One `context.error(ValueError(message), items=[...])` record: the
message of the `ValueError` and the ordered list of offending fields. -/
structure ValidationError where
  message : String
  items : List ConfigField
deriving DecidableEq, Repr

/-- The configuration attributes declared by the `Mesher` component.
Angles are stored as exact magnitudes in degrees. -/
structure MeshConfig where
  SAVE_MESH_FILES : Bool
  dry : Bool
  angular_width_xi : Rat
  angular_width_eta : Rat
  center_latitude : Rat
  center_longitude : Rat
  gamma_rotation_azimuth : Rat
  NCHUNKS : Int
  NEX_XI : Int
  NEX_ETA : Int
  NPROC_XI : Int
  NPROC_ETA : Int

/-- The twelve validation rules of `Mesher._validate`, in source order. -/
inductive Rule
  | angularWidthXi
  | angularWidthEta
  | nprocEqual
  | nexXiMult8Nproc
  | nexEtaMult8Nproc
  | nexXiMult8
  | nexEtaMult8
  | nexXiMin48
  | nexEtaMin48
  | nexPerProcXiMult16
  | nexPerProcEtaMult16
  | nexPerProcEqual
deriving DecidableEq, Repr

/-- The error record each rule reports when violated, with the message of
the `ValueError` raised into the context and the `items` list, as in the
source (source quotes option names with apostrophes; the apostrophes are
omitted here). -/
def ruleError : Rule → ValidationError
  | .angularWidthXi =>
      ⟨"angular-width-xi must be 90 degrees for more than one chunk",
       [.angular_width_xi]⟩
  | .angularWidthEta =>
      ⟨"angular-width-eta must be 90 degrees for more than two chunks",
       [.angular_width_eta]⟩
  | .nprocEqual =>
      ⟨"nproc-xi and nproc-eta must be equal for more than two chunks",
       [.NPROC_XI, .NPROC_ETA]⟩
  | .nexXiMult8Nproc =>
      ⟨"nex-xi must be a multiple of 8*nproc-xi", [.NEX_XI]⟩
  | .nexEtaMult8Nproc =>
      ⟨"nex-eta must be a multiple of 8*nproc-eta", [.NEX_ETA]⟩
  | .nexXiMult8 =>
      ⟨"nex-xi must be a multiple of 8", [.NEX_XI]⟩
  | .nexEtaMult8 =>
      ⟨"nex-eta must be a multiple of 8", [.NEX_ETA]⟩
  | .nexXiMin48 =>
      ⟨"nex-xi must be greater than 48 to cut the sphere into slices with positive Jacobian",
       [.NEX_XI]⟩
  | .nexEtaMin48 =>
      ⟨"nex-eta must be greater than 48 to cut the sphere into slices with positive Jacobian",
       [.NEX_ETA]⟩
  | .nexPerProcXiMult16 =>
      ⟨"nex-xi / nproc-xi (i.e., elements per processor) must be a multiple of 16 for outer core doubling",
       [.NEX_XI, .NPROC_XI]⟩
  | .nexPerProcEtaMult16 =>
      ⟨"nex-eta / nproc-eta (i.e., elements per processor) must be a multiple of 16 for outer core doubling",
       [.NEX_ETA, .NPROC_ETA]⟩
  | .nexPerProcEqual =>
      ⟨"must have the same number of elements per processor in both directions for more than two chunks",
       [.NEX_XI, .NPROC_XI, .NEX_ETA, .NPROC_ETA]⟩

/-- The guard of each rule, read off the corresponding `if` of
`Mesher._validate` (`NEX_PER_PROC_XI = NEX_XI / NPROC_XI` and
`NEX_PER_PROC_ETA = NEX_ETA / NPROC_ETA` inlined). -/
def violates (c : MeshConfig) : Rule → Prop
  | .angularWidthXi => c.NCHUNKS > 1 ∧ c.angular_width_xi ≠ 90
  | .angularWidthEta => c.NCHUNKS > 2 ∧ c.angular_width_eta ≠ 90
  | .nprocEqual => c.NCHUNKS > 2 ∧ c.NPROC_XI ≠ c.NPROC_ETA
  | .nexXiMult8Nproc => Int.fmod (Int.fdiv c.NEX_XI 8) c.NPROC_XI ≠ 0
  | .nexEtaMult8Nproc => Int.fmod (Int.fdiv c.NEX_ETA 8) c.NPROC_ETA ≠ 0
  | .nexXiMult8 => Int.fmod c.NEX_XI 8 ≠ 0
  | .nexEtaMult8 => Int.fmod c.NEX_ETA 8 ≠ 0
  | .nexXiMin48 => c.NEX_XI < 48
  | .nexEtaMin48 => c.NEX_ETA < 48
  | .nexPerProcXiMult16 => Int.fmod (Int.fdiv c.NEX_XI c.NPROC_XI) 16 ≠ 0
  | .nexPerProcEtaMult16 => Int.fmod (Int.fdiv c.NEX_ETA c.NPROC_ETA) 16 ≠ 0
  | .nexPerProcEqual =>
      c.NCHUNKS > 2 ∧ Int.fdiv c.NEX_XI c.NPROC_XI ≠ Int.fdiv c.NEX_ETA c.NPROC_ETA

instance (c : MeshConfig) (r : Rule) : Decidable (violates c r) :=
  match r with
  | .angularWidthXi => inferInstanceAs (Decidable (_ ∧ _))
  | .angularWidthEta => inferInstanceAs (Decidable (_ ∧ _))
  | .nprocEqual => inferInstanceAs (Decidable (_ ∧ _))
  | .nexXiMult8Nproc => inferInstanceAs (Decidable (_ ≠ _))
  | .nexEtaMult8Nproc => inferInstanceAs (Decidable (_ ≠ _))
  | .nexXiMult8 => inferInstanceAs (Decidable (_ ≠ _))
  | .nexEtaMult8 => inferInstanceAs (Decidable (_ ≠ _))
  | .nexXiMin48 => inferInstanceAs (Decidable (_ < _))
  | .nexEtaMin48 => inferInstanceAs (Decidable (_ < _))
  | .nexPerProcXiMult16 => inferInstanceAs (Decidable (_ ≠ _))
  | .nexPerProcEtaMult16 => inferInstanceAs (Decidable (_ ≠ _))
  | .nexPerProcEqual => inferInstanceAs (Decidable (_ ∧ _))

/-- The twelve rules in the order `Mesher._validate` checks them. -/
def allRules : List Rule :=
  [.angularWidthXi, .angularWidthEta, .nprocEqual,
   .nexXiMult8Nproc, .nexEtaMult8Nproc, .nexXiMult8, .nexEtaMult8,
   .nexXiMin48, .nexEtaMin48,
   .nexPerProcXiMult16, .nexPerProcEtaMult16, .nexPerProcEqual]

/-- `Mesher._validate` run with a fresh error context: the list of errors
the context has accumulated when the method returns.  Each `if` of the
source contributes its `context.error` record when its condition holds;
Python 2 `/` is `Int.fdiv` and Python 2 `%` is `Int.fmod`. -/
def validate (c : MeshConfig) : List ValidationError :=
  (if c.NCHUNKS > 1 ∧ c.angular_width_xi ≠ 90 then [ruleError .angularWidthXi] else []) ++
  (if c.NCHUNKS > 2 ∧ c.angular_width_eta ≠ 90 then [ruleError .angularWidthEta] else []) ++
  (if c.NCHUNKS > 2 ∧ c.NPROC_XI ≠ c.NPROC_ETA then [ruleError .nprocEqual] else []) ++
  (if Int.fmod (Int.fdiv c.NEX_XI 8) c.NPROC_XI ≠ 0 then [ruleError .nexXiMult8Nproc] else []) ++
  (if Int.fmod (Int.fdiv c.NEX_ETA 8) c.NPROC_ETA ≠ 0 then [ruleError .nexEtaMult8Nproc] else []) ++
  (if Int.fmod c.NEX_XI 8 ≠ 0 then [ruleError .nexXiMult8] else []) ++
  (if Int.fmod c.NEX_ETA 8 ≠ 0 then [ruleError .nexEtaMult8] else []) ++
  (if c.NEX_XI < 48 then [ruleError .nexXiMin48] else []) ++
  (if c.NEX_ETA < 48 then [ruleError .nexEtaMin48] else []) ++
  (if Int.fmod (Int.fdiv c.NEX_XI c.NPROC_XI) 16 ≠ 0 then [ruleError .nexPerProcXiMult16] else []) ++
  (if Int.fmod (Int.fdiv c.NEX_ETA c.NPROC_ETA) 16 ≠ 0 then [ruleError .nexPerProcEtaMult16] else []) ++
  (if c.NCHUNKS > 2 ∧ Int.fdiv c.NEX_XI c.NPROC_XI ≠ Int.fdiv c.NEX_ETA c.NPROC_ETA then
    [ruleError .nexPerProcEqual] else [])

/-- `Mesher._validate` as a method on the component state: it returns
(the unchanged state, the report).  The source method only reads `self`
and calls `context.error`; it assigns no attribute of `self`. -/
def validateRun (c : MeshConfig) : MeshConfig × List ValidationError :=
  (c, validate c)

/-- `Mesher.nproc`: the total number of processors needed. -/
def nproc (c : MeshConfig) : Int :=
  c.NCHUNKS * c.NPROC_XI * c.NPROC_ETA

/-- The observable action of `Mesher.execute`: either the dry-run branch
(a `print` naming the mesher, no call) or the call into `meshfem3D`. -/
inductive ExecAction
  | printWouldExecute
  | callMeshfem3D
deriving DecidableEq, Repr

/-- `Mesher.execute`: dry configurations only print what would run; the
external `meshfem3D` routine is invoked exactly on non-dry ones. -/
def execute (c : MeshConfig) : ExecAction :=
  if c.dry then .printWouldExecute else .callMeshfem3D

/-- Floor division as Python 2 performs it, raising `ZeroDivisionError`
(modelled as `none`) on a zero divisor. -/
def fdivChecked (a b : Int) : Option Int :=
  if b = 0 then none else some (Int.fdiv a b)

/-- Python 2 `%`, raising `ZeroDivisionError` (`none`) on a zero divisor. -/
def fmodChecked (a b : Int) : Option Int :=
  if b = 0 then none else some (Int.fmod a b)

/-- `Mesher._validate` with every Python division and modulo explicit as a
checked operation, in the order the source performs them; `none` is a
`ZeroDivisionError` escaping the method. -/
def validateChecked (c : MeshConfig) : Option (List ValidationError) := do
  let q4 ← fdivChecked c.NEX_XI 8
  let r4 ← fmodChecked q4 c.NPROC_XI
  let q5 ← fdivChecked c.NEX_ETA 8
  let r5 ← fmodChecked q5 c.NPROC_ETA
  let r6 ← fmodChecked c.NEX_XI 8
  let r7 ← fmodChecked c.NEX_ETA 8
  let nexPerProcXi ← fdivChecked c.NEX_XI c.NPROC_XI
  let nexPerProcEta ← fdivChecked c.NEX_ETA c.NPROC_ETA
  let r10 ← fmodChecked nexPerProcXi 16
  let r11 ← fmodChecked nexPerProcEta 16
  pure <|
    (if c.NCHUNKS > 1 ∧ c.angular_width_xi ≠ 90 then [ruleError .angularWidthXi] else []) ++
    (if c.NCHUNKS > 2 ∧ c.angular_width_eta ≠ 90 then [ruleError .angularWidthEta] else []) ++
    (if c.NCHUNKS > 2 ∧ c.NPROC_XI ≠ c.NPROC_ETA then [ruleError .nprocEqual] else []) ++
    (if r4 ≠ 0 then [ruleError .nexXiMult8Nproc] else []) ++
    (if r5 ≠ 0 then [ruleError .nexEtaMult8Nproc] else []) ++
    (if r6 ≠ 0 then [ruleError .nexXiMult8] else []) ++
    (if r7 ≠ 0 then [ruleError .nexEtaMult8] else []) ++
    (if c.NEX_XI < 48 then [ruleError .nexXiMin48] else []) ++
    (if c.NEX_ETA < 48 then [ruleError .nexEtaMin48] else []) ++
    (if r10 ≠ 0 then [ruleError .nexPerProcXiMult16] else []) ++
    (if r11 ≠ 0 then [ruleError .nexPerProcEtaMult16] else []) ++
    (if c.NCHUNKS > 2 ∧ nexPerProcXi ≠ nexPerProcEta then [ruleError .nexPerProcEqual] else [])

/-- The configuration built from the declared defaults of every attribute
(the two `pyre.bool` flags have no declared default; `false` here). -/
def defaultConfig : MeshConfig :=
  { SAVE_MESH_FILES := false
    dry := false
    angular_width_xi := 90
    angular_width_eta := 90
    center_latitude := 0
    center_longitude := 0
    gamma_rotation_azimuth := 0
    NCHUNKS := 6
    NEX_XI := 64
    NEX_ETA := 64
    NPROC_XI := 1
    NPROC_ETA := 1 }

/-- Defaults with `nex-xi = 50`: violates rule 6 (50 is not a multiple of
8) but, with `nproc-xi = 1`, not rule 4. -/
def config50 : MeshConfig :=
  { defaultConfig with NEX_XI := 50 }

/-- Defaults with both angular widths 80 degrees and `nex-xi = 50`:
violates exactly rules 1, 2, 6, 10 and 12. -/
def config5Violations : MeshConfig :=
  { defaultConfig with angular_width_xi := 80, angular_width_eta := 80, NEX_XI := 50 }

/-- Defaults with `nex-xi = 47`. -/
def config47 : MeshConfig :=
  { defaultConfig with NEX_XI := 47 }

/-- Defaults with `nex-xi = 48`. -/
def config48 : MeshConfig :=
  { defaultConfig with NEX_XI := 48 }

/-- Defaults with `nproc-xi = 2`, `nproc-eta = 3` (and `nchunks = 6`). -/
def config623 : MeshConfig :=
  { defaultConfig with NPROC_XI := 2, NPROC_ETA := 3 }

/-! ## Helper lemmas -/

/-- Filtering by a decidable predicate and mapping is the same as flat-mapping
each element to a singleton or nothing. -/
theorem filter_map_eq_flatMap {A B : Type} (P : A → Prop) [DecidablePred P]
    (f : A → B) (l : List A) :
    (l.filter (fun a => decide (P a))).map f
      = l.flatMap (fun a => if P a then [f a] else []) := by
  induction l with
  | nil => simp
  | cons a l ih => by_cases h : P a <;> simp [h, ih]

/-- The report of `validate` is exactly the violated rules, in checking
order, each mapped to its error record. -/
theorem validate_eq_filterMap (c : MeshConfig) :
    validate c = (allRules.filter (fun r => decide (violates c r))).map ruleError := by
  rw [filter_map_eq_flatMap (violates c) ruleError allRules]
  simp only [allRules, List.flatMap_cons, List.flatMap_nil, List.append_nil]
  simp only [validate, List.append_assoc]
  exact rfl

/-- A rule appears in the report exactly when its guard holds. -/
theorem mem_validate_iff (c : MeshConfig) (r : Rule) :
    ruleError r ∈ validate c ↔ violates c r := by
  cases r <;>
    simp [validate, violates, ruleError, List.mem_append, List.mem_ite_nil_right]

/-! ## Claims -/

/-- Claim C1: for every configuration, `_validate` evaluates all twelve
rules unconditionally and never raises for a rule violation (it is a total
function into reports); the report is exactly the violated rules, one
entry per violated rule, in checking order.  In particular the
configuration `config5Violations`, which violates five independent rules,
yields a report of exactly five entries, and the default configuration,
which violates none, yields the empty report. -/
theorem validate_reports_exactly_violated_rules :
    (∀ c : MeshConfig,
      validate c = (allRules.filter (fun r => decide (violates c r))).map ruleError) ∧
    (validate config5Violations).length = 5 ∧
    validate defaultConfig = [] :=
  ⟨validate_eq_filterMap, by decide, by decide⟩

/-- Claim C2, counterexample: for the configuration with `nex-xi = 50` and
`nproc-xi = 1` (all other fields at their defaults), the rule-4 violation
(nex-xi must be a multiple of 8*nproc-xi) is NOT in the report, because the
source computes `(50 / 8) % 1 = 6 % 1 = 0`; the claim asserts the report
contains it. -/
theorem rule4_absent_at_nexXi50_nprocXi1 :
    ruleError Rule.nexXiMult8Nproc ∉ validate config50 := by decide

/-- Claim C2, amended: for `nex-xi = 50`, `nproc-xi = 1` the report
contains the rule-6 violation (nex-xi must be a multiple of 8) but not the
rule-4 violation, since `(50 / 8) % 1 = 0`; more generally, each
divisibility rule (4, 5, 6, 7, 10 and 11) appears in the report exactly
when its own arithmetic condition is violated, independently of the other
rules. -/
theorem divisibility_rules_fire_independently :
    (∀ c : MeshConfig,
      (ruleError Rule.nexXiMult8Nproc ∈ validate c ↔
        Int.fmod (Int.fdiv c.NEX_XI 8) c.NPROC_XI ≠ 0) ∧
      (ruleError Rule.nexEtaMult8Nproc ∈ validate c ↔
        Int.fmod (Int.fdiv c.NEX_ETA 8) c.NPROC_ETA ≠ 0) ∧
      (ruleError Rule.nexXiMult8 ∈ validate c ↔ Int.fmod c.NEX_XI 8 ≠ 0) ∧
      (ruleError Rule.nexEtaMult8 ∈ validate c ↔ Int.fmod c.NEX_ETA 8 ≠ 0) ∧
      (ruleError Rule.nexPerProcXiMult16 ∈ validate c ↔
        Int.fmod (Int.fdiv c.NEX_XI c.NPROC_XI) 16 ≠ 0) ∧
      (ruleError Rule.nexPerProcEtaMult16 ∈ validate c ↔
        Int.fmod (Int.fdiv c.NEX_ETA c.NPROC_ETA) 16 ≠ 0)) ∧
    ruleError Rule.nexXiMult8 ∈ validate config50 ∧
    ruleError Rule.nexXiMult8Nproc ∉ validate config50 :=
  ⟨fun c =>
    ⟨mem_validate_iff c Rule.nexXiMult8Nproc,
     mem_validate_iff c Rule.nexEtaMult8Nproc,
     mem_validate_iff c Rule.nexXiMult8,
     mem_validate_iff c Rule.nexEtaMult8,
     mem_validate_iff c Rule.nexPerProcXiMult16,
     mem_validate_iff c Rule.nexPerProcEtaMult16⟩,
   by decide, by decide⟩

/-- Claim C3: the angular-width-xi violation (rule 1) is in the report if
and only if `nchunks > 1` and the angular width along xi differs from 90
degrees; and with `nchunks` set to 1 it is absent whatever the angle. -/
theorem rule1_iff_multichunk_width_ne_90 :
    (∀ c : MeshConfig,
      ruleError Rule.angularWidthXi ∈ validate c ↔
        c.NCHUNKS > 1 ∧ c.angular_width_xi ≠ 90) ∧
    (∀ c : MeshConfig,
      ruleError Rule.angularWidthXi ∉ validate { c with NCHUNKS := 1 }) :=
  ⟨fun c => mem_validate_iff c Rule.angularWidthXi,
   fun c h => by
     have hv := (mem_validate_iff _ Rule.angularWidthXi).mp h
     simp [violates] at hv⟩

/-- Claim C4: the minimum-element-count boundary is inclusive at 48: the
rule-8 violation is in the report exactly when `nex-xi < 48` strictly, and
rule 9 exactly when `nex-eta < 48`; concretely `nex-xi = 48` does not
produce the rule-8 entry while `nex-xi = 47` does. -/
theorem rule8_rule9_strict_boundary_48 :
    (∀ c : MeshConfig,
      (ruleError Rule.nexXiMin48 ∈ validate c ↔ c.NEX_XI < 48) ∧
      (ruleError Rule.nexEtaMin48 ∈ validate c ↔ c.NEX_ETA < 48)) ∧
    ruleError Rule.nexXiMin48 ∉ validate config48 ∧
    ruleError Rule.nexXiMin48 ∈ validate config47 :=
  ⟨fun c => ⟨mem_validate_iff c Rule.nexXiMin48, mem_validate_iff c Rule.nexEtaMin48⟩,
   by decide, by decide⟩

/-- Claim C5: `nproc` returns exactly `nchunks * nproc-xi * nproc-eta` for
every configuration (it is a pure total function, callable whatever
validation said), and on `nchunks = 6`, `nproc-xi = 2`, `nproc-eta = 3` it
returns 36. -/
theorem nproc_eq_product :
    (∀ c : MeshConfig, nproc c = c.NCHUNKS * c.NPROC_XI * c.NPROC_ETA) ∧
    nproc config623 = 36 :=
  ⟨fun _ => rfl, by decide⟩

/-- Claim C6: `execute` calls the external `meshfem3D` routine exactly on
configurations with `dry = false`; a dry run never invokes it. -/
theorem execute_calls_mesher_iff_not_dry :
    ∀ c : MeshConfig, execute c = ExecAction.callMeshfem3D ↔ c.dry = false := by
  intro c
  cases h : c.dry <;> simp [execute, h]

/-- Claim C7: `_validate` leaves every field of the configuration
unchanged — the state it returns agrees with the input configuration on
all twelve fields — and its only output is the report. -/
theorem validate_mutates_nothing :
    ∀ c : MeshConfig,
      (validateRun c).1.SAVE_MESH_FILES = c.SAVE_MESH_FILES ∧
      (validateRun c).1.dry = c.dry ∧
      (validateRun c).1.angular_width_xi = c.angular_width_xi ∧
      (validateRun c).1.angular_width_eta = c.angular_width_eta ∧
      (validateRun c).1.center_latitude = c.center_latitude ∧
      (validateRun c).1.center_longitude = c.center_longitude ∧
      (validateRun c).1.gamma_rotation_azimuth = c.gamma_rotation_azimuth ∧
      (validateRun c).1.NCHUNKS = c.NCHUNKS ∧
      (validateRun c).1.NEX_XI = c.NEX_XI ∧
      (validateRun c).1.NEX_ETA = c.NEX_ETA ∧
      (validateRun c).1.NPROC_XI = c.NPROC_XI ∧
      (validateRun c).1.NPROC_ETA = c.NPROC_ETA ∧
      (validateRun c).2 = validate c :=
  fun _ => ⟨rfl, rfl, rfl, rfl, rfl, rfl, rfl, rfl, rfl, rfl, rfl, rfl, rfl⟩

/-- Claim C8: validation is deterministic: running `_validate` a second
time, on the state the first run returned, produces the identical report
(same entries in the same order). -/
theorem validate_deterministic :
    ∀ c : MeshConfig, (validateRun (validateRun c).1).2 = (validateRun c).2 :=
  fun _ => rfl

/-- Claim C9: with `nproc-xi = 1` the rule-4 violation can never be in the
report, whatever `nex-xi` is, because `(nex-xi / 8) % 1 = 0`; symmetrically
with `nproc-eta = 1` the rule-5 violation never appears. -/
theorem rule4_rule5_never_fire_with_one_proc :
    ∀ c : MeshConfig,
      (c.NPROC_XI = 1 → ruleError Rule.nexXiMult8Nproc ∉ validate c) ∧
      (c.NPROC_ETA = 1 → ruleError Rule.nexEtaMult8Nproc ∉ validate c) := by
  intro c
  constructor
  · intro h hmem
    have hv := (mem_validate_iff c Rule.nexXiMult8Nproc).mp hmem
    simp only [violates, h, Int.fmod_one, ne_eq, not_true_eq_false] at hv
  · intro h hmem
    have hv := (mem_validate_iff c Rule.nexEtaMult8Nproc).mp hmem
    simp only [violates, h, Int.fmod_one, ne_eq, not_true_eq_false] at hv

/-- Claim C9, witness: `config50` has `nproc-xi = 1` and `nex-xi = 50`
(not a multiple of 8), and rule 4 is absent from its report; the default
configuration has `nproc-eta = 1` and rule 5 is absent from its report. -/
theorem rule4_rule5_never_fire_with_one_proc_witness :
    ruleError Rule.nexXiMult8Nproc ∉ validate config50 ∧
    ruleError Rule.nexEtaMult8Nproc ∉ validate defaultConfig :=
  ⟨(rule4_rule5_never_fire_with_one_proc config50).1 rfl,
   (rule4_rule5_never_fire_with_one_proc defaultConfig).2 rfl⟩

/-- Claim C10: under the construction-time validators `nproc-xi ≥ 1` and
`nproc-eta ≥ 1`, every division and modulo `_validate` performs has a
nonzero divisor, so the run with checked (ZeroDivisionError-raising)
arithmetic succeeds and returns exactly the report of `validate`
(`nproc` performs no division at all). -/
theorem validate_no_division_by_zero :
    ∀ c : MeshConfig, 1 ≤ c.NPROC_XI → 1 ≤ c.NPROC_ETA →
      validateChecked c = some (validate c) := by
  intro c hx he
  have hx0 : c.NPROC_XI ≠ 0 := by omega
  have he0 : c.NPROC_ETA ≠ 0 := by omega
  simp [validateChecked, fdivChecked, fmodChecked, hx0, he0, validate]

/-- Claim C10, witness: on the default configuration (both processor
counts 1) the checked run succeeds with the (empty) report. -/
theorem validate_no_division_by_zero_witness :
    (1 : Int) ≤ defaultConfig.NPROC_XI ∧ (1 : Int) ≤ defaultConfig.NPROC_ETA ∧
    validateChecked defaultConfig = some (validate defaultConfig) :=
  ⟨by decide, by decide,
   validate_no_division_by_zero defaultConfig (by decide) (by decide)⟩

end Specfem3DGlobe
